import Mathlib

/-!
Verification development for the clickable-element web scraper
(`web_scraper.py`).  The in-page classification script
`JS_GET_CLICKABLE_ELEMENTS`, the dataclasses `ElementInfo` and
`PageAnalysis`, and the session operations `click_element` and
`highlight_element` are embedded shallowly below.  Machine numbers
(JavaScript numbers, Python floats) are modelled as exact rationals;
Python dictionaries with string keys are modelled as association
lists in insertion order; the remote browser (Playwright) is modelled
as an environment of response functions plus an explicit trace of the
browser operations a call performs.
-/

/-- The result of `getBoundingClientRect`, and also the `boundingBox`
record captured for each classified element (the source copies the
eight fields verbatim).  Coherence between the fields (for instance
`right = x + width`) is not assumed; theorems that need it take it as
a hypothesis. -/
structure Rect where
  x : ℚ
  y : ℚ
  width : ℚ
  height : ℚ
  top : ℚ
  right : ℚ
  bottom : ℚ
  left : ℚ
deriving DecidableEq

/-- The facts about a DOM element node that the classification script
reads: `tagName` (stored already lower-cased; the script lower-cases
the DOM value and sibling comparison is unaffected), the attribute
map in document order, the bounding client rect, the computed style
strings consulted by `isVisible`, the `value`, `placeholder`,
`innerText` and `textContent` properties consulted by
`getElementText`, and whether the element has a truthy native
`onclick` handler property. -/
structure NodeData where
  tagName : String
  attributes : List (String × String)
  rect : Rect
  cssVisibility : String
  cssDisplay : String
  cssOpacity : String
  value : String
  placeholder : String
  innerText : String
  textContent : String
  onclickHandler : Bool
deriving DecidableEq

/-- A DOM element node: its data and its element children in document
order.  Text nodes are not modelled: `processElement` only iterates
over `element.children` (element nodes), and the sibling counting in
`getXPath` skips non-element siblings. -/
inductive DomNode where
  | node (data : NodeData) (children : List DomNode)

def DomNode.data : DomNode → NodeData
  | .node d _ => d

def DomNode.children : DomNode → List DomNode
  | .node _ cs => cs

/-- `element.getAttribute(name)`: the value of the first binding of
`name`, or null (`none`) when absent. -/
def getAttribute (attrs : List (String × String)) (name : String) : Option String :=
  (attrs.find? (fun kv => kv.1 == name)).map (fun kv => kv.2)

/-- JavaScript truthiness of `getAttribute(name)`: present and not the
empty string. -/
def attrTruthy (attrs : List (String × String)) (name : String) : Bool :=
  match getAttribute attrs name with
  | some v => v != ""
  | none => false

/-- `isVisible` from `JS_GET_CLICKABLE_ELEMENTS`: some rect field of
`top`, `bottom`, `width`, `height` is non-zero (truthy), and the
computed style is not `visibility:hidden`, `display:none` or
`opacity:0`. -/
def isVisible (d : NodeData) : Bool :=
  (!(d.rect.top == 0) || !(d.rect.bottom == 0) || !(d.rect.width == 0) || !(d.rect.height == 0))
  && d.cssVisibility != "hidden"
  && d.cssDisplay != "none"
  && d.cssOpacity != "0"

/-- `isInViewport` from `JS_GET_CLICKABLE_ELEMENTS`: the rect is
within the viewport extended by 100 pixels on every edge.
`innerW`/`innerH` are `window.innerWidth`/`window.innerHeight`. -/
def isInViewport (innerW innerH : ℚ) (r : Rect) : Bool :=
  decide (r.top ≥ -100) && decide (r.left ≥ -100)
  && decide (r.bottom ≤ innerH + 100) && decide (r.right ≤ innerW + 100)

/-- The fixed interactive tag set of `isInteractive`. -/
def interactiveTags : List String :=
  ["a", "button", "input", "select", "textarea", "details", "summary"]

/-- The fixed interactive ARIA role set of `isInteractive`. -/
def interactiveRoles : List String :=
  ["button", "link", "checkbox", "radio", "tab", "menuitem"]

/-- `isInteractive` from `JS_GET_CLICKABLE_ELEMENTS`: interactive tag,
else interactive role, else a click handler (native property or one
of the `onclick`, `ng-click`, `@click` attributes), else a `tabindex`
attribute that is truthy and not `-1`, else
`contenteditable="true"`. -/
def isInteractive (d : NodeData) : Bool :=
  if interactiveTags.contains d.tagName then true
  else if (match getAttribute d.attributes "role" with
           | some r => r != "" && interactiveRoles.contains r
           | none => false) then true
  else if d.onclickHandler || attrTruthy d.attributes "onclick"
          || attrTruthy d.attributes "ng-click" || attrTruthy d.attributes "@click" then true
  else if (match getAttribute d.attributes "tabindex" with
           | some t => t != "" && t != "-1"
           | none => false) then true
  else getAttribute d.attributes "contenteditable" == some "true"

/-- `getElementText` from `JS_GET_CLICKABLE_ELEMENTS`: for `input`
elements the value, else the placeholder, else empty; for the rest
`innerText`, else `textContent`, else empty (JavaScript `||` takes
the first truthy operand). -/
def getElementText (d : NodeData) : String :=
  if d.tagName == "input" then
    if d.value != "" then d.value
    else if d.placeholder != "" then d.placeholder
    else ""
  else
    if d.innerText != "" then d.innerText
    else if d.textContent != "" then d.textContent
    else ""

/-- One positional step of `getXPath`: the path component of a child
whose preceding element siblings are `prev` — the lower-cased tag,
suffixed with `[k+1]` when `k`, the number of preceding siblings with
the same tag, is non-zero (truthy). -/
def childPart (c : DomNode) (prev : List DomNode) : String :=
  let k := (prev.filter (fun s => s.data.tagName == c.data.tagName)).length
  if k == 0 then c.data.tagName
  else c.data.tagName ++ "[" ++ toString (k + 1) ++ "]"

/-- `getXPath` from `JS_GET_CLICKABLE_ELEMENTS`, with the positional
ancestor chain precomputed: when the element has a truthy `id` the id
form is returned; otherwise the slash-joined positional path `parts`
(every ancestor component up to and including the element itself). -/
def getXPath (d : NodeData) (parts : List String) : String :=
  let idv := (getAttribute d.attributes "id").getD ""
  if idv != "" then "//*[@id=\"" ++ idv ++ "\"]"
  else "/" ++ String.intercalate "/" parts

/-- The raw record pushed onto `clickableElements` for one qualifying
node (field names as in the script). -/
structure RawElem where
  index : Nat
  tagName : String
  text : String
  attributes : List (String × String)
  xpath : String
  isVisible : Bool
  isInViewport : Bool
  boundingBox : Rect
deriving DecidableEq

/-- The record `processElement` pushes for a qualifying node: note the
constant `isVisible: true` and the text trimmed then truncated to 100
characters. -/
def mkRaw (innerW innerH : ℚ) (d : NodeData) (parts : List String) (idx : Nat) : RawElem :=
  { index := idx
    tagName := d.tagName
    text := (getElementText d).trim.take 100
    attributes := d.attributes
    xpath := getXPath d parts
    isVisible := true
    isInViewport := isInViewport innerW innerH d.rect
    boundingBox := d.rect }

mutual

/-- `processElement` from `JS_GET_CLICKABLE_ELEMENTS`: skip the node
and its whole subtree when not visible; when interactive push a
record (consuming one index); then recurse into the children.
`parts` is the positional path chain down to and including this node
(for the starting call on `document.body` this is the chain
`getXPath` would compute for the body, such as html then body); the
pair returned is the records emitted and the counter after them. -/
def processElement (innerW innerH : ℚ) (el : DomNode) (parts : List String) (idx : Nat) :
    List RawElem × Nat :=
  match el with
  | .node d cs =>
    if isVisible d then
      let self := if isInteractive d then [mkRaw innerW innerH d parts idx] else []
      let idx1 := if isInteractive d then idx + 1 else idx
      let r := processChildren innerW innerH cs [] parts idx1
      (self ++ r.1, r.2)
    else ([], idx)
termination_by sizeOf el

/-- The `for (const child of element.children)` loop of
`processElement`; `prev` is the list of element siblings already
passed (needed for the positional path component of each child). -/
def processChildren (innerW innerH : ℚ) (cs : List DomNode) (prev : List DomNode)
    (parts : List String) (idx : Nat) : List RawElem × Nat :=
  match cs with
  | [] => ([], idx)
  | c :: rest =>
    let r1 := processElement innerW innerH c (parts ++ [childPart c prev]) idx
    let r2 := processChildren innerW innerH rest (prev ++ [c]) parts r1.2
    (r1.1 ++ r2.1, r2.2)
termination_by sizeOf cs

end

/-- The whole `JS_GET_CLICKABLE_ELEMENTS` script: start with the
counter at zero at `document.body` and return the pushed records.
`bodyParts` is the positional chain `getXPath` computes for the body
element (for an ordinary document, html then body). -/
def js_get_clickable_elements (innerW innerH : ℚ) (body : DomNode)
    (bodyParts : List String) : List RawElem :=
  (processElement innerW innerH body bodyParts 0).1

/-- The `ElementInfo` dataclass: the index is a Python integer, the
bounding box a string-keyed float dictionary that for classifier
output either holds the eight rect fields or, for the dataclass
default, is empty (`none` models the empty dictionary, which is falsy
in `if element.bounding_box`). -/
structure ElementInfo where
  index : Int
  tag_name : String
  text : String
  attributes : List (String × String)
  xpath : String
  is_visible : Bool
  is_in_viewport : Bool
  bounding_box : Option Rect
deriving DecidableEq

/-- The `PageAnalysis` dataclass. -/
structure PageAnalysis where
  url : String
  title : String
  timestamp : String
  elements : List ElementInfo
deriving DecidableEq

/-- The body of the conversion loop in
`WebScraper.find_clickable_elements` (lines 363 to 375): each raw
record becomes an `ElementInfo`, field for field. -/
def rawToElementInfo (r : RawElem) : ElementInfo :=
  { index := Int.ofNat r.index
    tag_name := r.tagName
    text := r.text
    attributes := r.attributes
    xpath := r.xpath
    is_visible := r.isVisible
    is_in_viewport := r.isInViewport
    bounding_box := some r.boundingBox }

namespace WebScraper

/-- The element list produced by one classification pass: the raw
records of `JS_GET_CLICKABLE_ELEMENTS` converted to `ElementInfo`. -/
def clickable_elements (innerW innerH : ℚ) (body : DomNode) (bodyParts : List String) :
    List ElementInfo :=
  (js_get_clickable_elements innerW innerH body bodyParts).map rawToElementInfo

/-- `WebScraper.find_clickable_elements`: raises `ValueError` when no
page is open, otherwise evaluates the classification script and
converts its records.  `page_open` models whether `self.page` is
set. -/
def find_clickable_elements (page_open : Bool) (innerW innerH : ℚ) (body : DomNode)
    (bodyParts : List String) : Except String (List ElementInfo) :=
  if page_open then .ok (clickable_elements innerW innerH body bodyParts)
  else .error "No page is open. Call open_page() first."

end WebScraper

/-- A browser interaction performed by `click_element` or
`highlight_element` through the automation engine: a Playwright
locator click with an xpath locator (`page.click` on the string
`xpath=` followed by the recorded xpath), a locator click with a CSS
selector, a coordinate mouse click, the injection of the
`JS_HIGHLIGHT_ELEMENT` overlay script for a CSS selector, the
XPath-existence evaluation, and the XPath style-mutation
evaluation. -/
inductive BrowserOp where
  | clickXPath (xpath : String)
  | clickSelector (sel : String)
  | mouseClick (x y : ℚ)
  | evalHighlightOverlay (sel : String)
  | evalXPathQuery (xpath : String)
  | evalXPathStyle (xpath : String)
deriving DecidableEq

/-- The remote browser as seen by `click_element`: for each attempted
click the environment says whether the Playwright call returns
normally (`true`) or raises an automation-layer error (`false`). -/
structure ClickEnv where
  xpathClickOk : String → Bool
  idClickOk : String → Bool
  mouseClickOk : ℚ → ℚ → Bool

/-- The remote browser as seen by `highlight_element`: whether the
XPath-existence script finds a node for the given xpath, and the
boolean returned by the `JS_HIGHLIGHT_ELEMENT` script for the given
CSS selector (`false` when `document.querySelector` finds nothing). -/
structure HighlightEnv where
  xpathFound : String → Bool
  querySelectorOk : String → Bool

namespace WebScraper

/-- `WebScraper.click_element`.  The first component is the Python
return value (`Except.error` would be an escaping exception; every
path of the method returns a bool, the `try` turning automation-layer
errors into `False`).  The second component is the trace of browser
interactions the call performs, in order.  Mirrors the source: no
page gives `False`; an unresolved index gives `False`; else inside
`try`: a non-empty recorded xpath is clicked via the xpath locator
(an error is caught by the `except` and gives `False` for the whole
call); else an `id` attribute is clicked via the id CSS selector;
else a (non-empty) captured bounding box is clicked at its center
point computed from the stored box; else `False`. -/
def click_element (env : ClickEnv) (page_open : Bool) (element_index : Int)
    (elements : List ElementInfo) : Except String Bool × List BrowserOp :=
  if !page_open then (.ok false, [])
  else
    match elements.find? (fun e => e.index == element_index) with
    | none => (.ok false, [])
    | some e =>
      if e.xpath != "" then
        if env.xpathClickOk e.xpath then (.ok true, [.clickXPath e.xpath])
        else (.ok false, [.clickXPath e.xpath])
      else
        match getAttribute e.attributes "id" with
        | some idv =>
          if env.idClickOk ("#" ++ idv) then (.ok true, [.clickSelector ("#" ++ idv)])
          else (.ok false, [.clickSelector ("#" ++ idv)])
        | none =>
          match e.bounding_box with
          | some bb =>
            if env.mouseClickOk (bb.x + bb.width / 2) (bb.y + bb.height / 2) then
              (.ok true, [.mouseClick (bb.x + bb.width / 2) (bb.y + bb.height / 2)])
            else (.ok false, [.mouseClick (bb.x + bb.width / 2) (bb.y + bb.height / 2)])
          | none => (.ok false, [])

/-- `WebScraper.highlight_element`.  Mirrors the source: no page gives
`False`; an unresolved index gives `False`; an element with an `id`
attribute builds the id CSS selector and runs the overlay script,
returning its boolean; else a non-empty recorded xpath is looked up
by the XPath-existence script — when found the style-mutation script
runs and the call returns `True`, else `False`; else `False`. -/
def highlight_element (env : HighlightEnv) (page_open : Bool) (element_index : Int)
    (elements : List ElementInfo) : Except String Bool × List BrowserOp :=
  if !page_open then (.ok false, [])
  else
    match elements.find? (fun e => e.index == element_index) with
    | none => (.ok false, [])
    | some e =>
      match getAttribute e.attributes "id" with
      | some idv =>
        (.ok (env.querySelectorOk ("#" ++ idv)), [.evalHighlightOverlay ("#" ++ idv)])
      | none =>
        if e.xpath != "" then
          if env.xpathFound e.xpath then
            (.ok true, [.evalXPathQuery e.xpath, .evalXPathStyle e.xpath])
          else (.ok false, [.evalXPathQuery e.xpath])
        else (.ok false, [])

end WebScraper

/-- The JSON documents `json.dump` can write: Python integers and
floats are kept apart as `json` keeps them apart; numbers are modelled
as exact rationals; objects keep key insertion order. -/
inductive Json where
  | str (s : String)
  | int (n : Int)
  | num (q : ℚ)
  | bool (b : Bool)
  | null
  | arr (elems : List Json)
  | obj (fields : List (String × Json))

/-- The serialization of a bounding-box dictionary: for classifier
output the eight rect fields in the order the script builds them; for
the dataclass default the empty dictionary. -/
def Rect.to_dict (r : Rect) : Json :=
  .obj [("x", .num r.x), ("y", .num r.y), ("width", .num r.width), ("height", .num r.height),
        ("top", .num r.top), ("right", .num r.right), ("bottom", .num r.bottom),
        ("left", .num r.left)]

/-- `ElementInfo.to_dict` (via `dataclasses.asdict`): the fields in
dataclass declaration order. -/
def ElementInfo.to_dict (e : ElementInfo) : Json :=
  .obj [("index", .int e.index), ("tag_name", .str e.tag_name), ("text", .str e.text),
        ("attributes", .obj (e.attributes.map (fun kv => (kv.1, Json.str kv.2)))),
        ("xpath", .str e.xpath), ("is_visible", .bool e.is_visible),
        ("is_in_viewport", .bool e.is_in_viewport),
        ("bounding_box", match e.bounding_box with
                         | some r => r.to_dict
                         | none => .obj [])]

/-- `PageAnalysis.to_dict`, the document shape `save_to_file` writes:
url, title, timestamp, and the serialized element list. -/
def PageAnalysis.to_dict (p : PageAnalysis) : Json :=
  .obj [("url", .str p.url), ("title", .str p.title), ("timestamp", .str p.timestamp),
        ("elements", .arr (p.elements.map ElementInfo.to_dict))]

/-- Modelled from the spec: the repository has no loader for its own
JSON output, so reading the document back follows the documented
output shape (url, title, timestamp, elements with index, tag_name,
text, attributes, xpath, is_visible, is_in_viewport, bounding_box).
This reads a serialized attribute mapping back. -/
def parseAttributes : List (String × Json) → Option (List (String × String))
  | [] => some []
  | (k, Json.str v) :: rest => (parseAttributes rest).map (fun l => (k, v) :: l)
  | _ => none

/-- Modelled from the spec: reads a serialized bounding-box dictionary
back — empty for the dataclass default, else the eight rect fields. -/
def parseBoundingBox : Json → Option (Option Rect)
  | .obj [] => some none
  | .obj [("x", .num x), ("y", .num y), ("width", .num w), ("height", .num h),
          ("top", .num t), ("right", .num r), ("bottom", .num b), ("left", .num l)] =>
    some (some ⟨x, y, w, h, t, r, b, l⟩)
  | _ => none

/-- Modelled from the spec: reads one serialized element back. -/
def parseElementInfo : Json → Option ElementInfo
  | .obj [("index", .int i), ("tag_name", .str tg), ("text", .str tx),
          ("attributes", .obj akvs), ("xpath", .str xp), ("is_visible", .bool vis),
          ("is_in_viewport", .bool inv), ("bounding_box", bb)] => do
    let attrs ← parseAttributes akvs
    let box ← parseBoundingBox bb
    some { index := i, tag_name := tg, text := tx, attributes := attrs, xpath := xp,
           is_visible := vis, is_in_viewport := inv, bounding_box := box }
  | _ => none

/-- Modelled from the spec: reads a serialized element list back. -/
def parseElements : List Json → Option (List ElementInfo)
  | [] => some []
  | j :: rest => do
    let e ← parseElementInfo j
    let es ← parseElements rest
    some (e :: es)

/-- Modelled from the spec: reads a whole serialized `PageAnalysis`
document back. -/
def parsePageAnalysis : Json → Option PageAnalysis
  | .obj [("url", .str u), ("title", .str t), ("timestamp", .str ts), ("elements", .arr js)] => do
    let es ← parseElements js
    some { url := u, title := t, timestamp := ts, elements := es }
  | _ => none

/-- A small concrete page used to exercise the theorems: a visible,
non-interactive body holding four visible buttons, the fourth with
the id `submit`. -/
def demoData (tag : String) (attrs : List (String × String)) : NodeData :=
  { tagName := tag
    attributes := attrs
    rect := ⟨0, 0, 100, 20, 0, 100, 20, 0⟩
    cssVisibility := "visible"
    cssDisplay := "block"
    cssOpacity := "1"
    value := ""
    placeholder := ""
    innerText := "Click"
    textContent := "Click"
    onclickHandler := false }

def demoBody : DomNode :=
  .node (demoData "body" [])
    [ .node (demoData "button" []) []
    , .node (demoData "button" []) []
    , .node (demoData "button" []) []
    , .node (demoData "button" [("id", "submit")]) [] ]

/-- A classified element used to drive the theorems directly: a
recorded element with an empty xpath, no attributes and a captured
bounding box. -/
def plainElem : ElementInfo :=
  { index := 0, tag_name := "div", text := "", attributes := [], xpath := ""
    is_visible := true, is_in_viewport := true
    bounding_box := some ⟨10, 5, 20, 8, 5, 30, 13, 10⟩ }

/-- An element with both a recorded xpath and an id attribute, used to
show what happens when the xpath click raises. -/
def errElem : ElementInfo :=
  { index := 0, tag_name := "a", text := "", attributes := [("id", "submit")]
    xpath := "/html/body/a", is_visible := true, is_in_viewport := true
    bounding_box := some ⟨10, 5, 20, 8, 5, 30, 13, 10⟩ }

/-- A browser in which every click succeeds. -/
def allOkEnv : ClickEnv :=
  { xpathClickOk := fun _ => true, idClickOk := fun _ => true, mouseClickOk := fun _ _ => true }

/-- A browser in which xpath-locator clicks raise and everything else
succeeds. -/
def xpathFailEnv : ClickEnv :=
  { xpathClickOk := fun _ => false, idClickOk := fun _ => true, mouseClickOk := fun _ _ => true }

/-- A browser in which both highlight scripts succeed. -/
def allOkHEnv : HighlightEnv :=
  { xpathFound := fun _ => true, querySelectorOk := fun _ => true }

/-- The fourth classified element of the demo page. -/
def demoSubmitElem : ElementInfo :=
  rawToElementInfo
    (mkRaw 1280 800 (demoData "button" [("id", "submit")]) ["html", "body", "button[4]"] 3)

mutual

theorem processElement_counter (iW iH : ℚ) (el : DomNode) (parts : List String) (idx : Nat) :
    (processElement iW iH el parts idx).2 = idx + (processElement iW iH el parts idx).1.length ∧
    (processElement iW iH el parts idx).1.map (fun r => r.index) =
      List.range' idx (processElement iW iH el parts idx).1.length := by
  match el with
  | .node d cs =>
    rw [processElement]
    by_cases hv : isVisible d
    · simp only [hv, if_true]
      by_cases hi : isInteractive d
      · simp only [hi, if_true]
        have ih := processChildren_counter iW iH cs [] parts (idx + 1)
        generalize hch : processChildren iW iH cs [] parts (idx + 1) = ch at ih ⊢
        refine ⟨?_, ?_⟩
        · simp only [List.singleton_append, List.length_cons, ih.1]
          omega
        · simp only [List.singleton_append, List.map_cons, List.length_cons, ih.2, mkRaw]
          rw [List.range'_succ]
      · simp only [hi, if_false]
        have ih := processChildren_counter iW iH cs [] parts idx
        simpa using ih
    · simp [hv]
termination_by sizeOf el

theorem processChildren_counter (iW iH : ℚ) (cs : List DomNode) (prev : List DomNode)
    (parts : List String) (idx : Nat) :
    (processChildren iW iH cs prev parts idx).2 =
      idx + (processChildren iW iH cs prev parts idx).1.length ∧
    (processChildren iW iH cs prev parts idx).1.map (fun r => r.index) =
      List.range' idx (processChildren iW iH cs prev parts idx).1.length := by
  match cs with
  | [] => simp [processChildren]
  | c :: rest =>
    rw [processChildren]
    have ih1 := processElement_counter iW iH c (parts ++ [childPart c prev]) idx
    have ih2 := processChildren_counter iW iH rest (prev ++ [c]) parts
      (processElement iW iH c (parts ++ [childPart c prev]) idx).2
    generalize hr1 : processElement iW iH c (parts ++ [childPart c prev]) idx = r1 at ih1 ih2 ⊢
    generalize hr2 : processChildren iW iH rest (prev ++ [c]) parts r1.2 = r2 at ih2 ⊢
    refine ⟨?_, ?_⟩
    · rw [ih2.1, ih1.1]
      simp only [List.length_append]
      omega
    · simp only [List.map_append, List.length_append, ih1.2, ih2.2, ih1.1]
      rw [List.range'_append_1, Nat.add_comm]
termination_by sizeOf cs

end

mutual

theorem processElement_shape (iW iH : ℚ) (el : DomNode) (parts : List String) (idx : Nat) :
    ∀ r ∈ (processElement iW iH el parts idx).1,
      ∃ d parts2 i, r = mkRaw iW iH d parts2 i := by
  match el with
  | .node d cs =>
    rw [processElement]
    by_cases hv : isVisible d
    · simp only [hv, if_true]
      intro r hr
      rcases List.mem_append.1 hr with h | h
      · by_cases hi : isInteractive d
        · simp only [hi, if_true, List.mem_singleton] at h
          exact ⟨d, parts, idx, h⟩
        · simp [hi] at h
      · exact processChildren_shape iW iH cs [] parts
          (if isInteractive d then idx + 1 else idx) r h
    · simp [hv]
termination_by sizeOf el

theorem processChildren_shape (iW iH : ℚ) (cs : List DomNode) (prev : List DomNode)
    (parts : List String) (idx : Nat) :
    ∀ r ∈ (processChildren iW iH cs prev parts idx).1,
      ∃ d parts2 i, r = mkRaw iW iH d parts2 i := by
  match cs with
  | [] => simp [processChildren]
  | c :: rest =>
    rw [processChildren]
    intro r hr
    rcases List.mem_append.1 hr with h | h
    · exact processElement_shape iW iH c (parts ++ [childPart c prev]) idx r h
    · exact processChildren_shape iW iH rest (prev ++ [c]) parts
        (processElement iW iH c (parts ++ [childPart c prev]) idx).2 r h
termination_by sizeOf cs

end

theorem slash_append_ne_empty (t : String) : "/" ++ t ≠ "" := by
  intro h
  have hl := congrArg String.length h
  rw [String.length_append] at hl
  have h1 : ("/" : String).length = 1 := rfl
  have h0 : ("" : String).length = 0 := rfl
  omega

theorem getXPath_slash (d : NodeData) (parts : List String) :
    ∃ t, getXPath d parts = "/" ++ t := by
  unfold getXPath
  by_cases h : ((getAttribute d.attributes "id").getD "" != "") = true
  · simp only [h, if_true]
    refine ⟨"/*[@id=\"" ++ (getAttribute d.attributes "id").getD "" ++ "\"]", ?_⟩
    have key : ("/" ++ "/*[@id=\"" : String) = "//*[@id=\"" := by decide
    rw [← String.append_assoc, ← String.append_assoc, key]
  · simp only [h, if_false]
    exact ⟨String.intercalate "/" parts, rfl⟩

theorem getXPath_ne_empty (d : NodeData) (parts : List String) : getXPath d parts ≠ "" := by
  obtain ⟨t, ht⟩ := getXPath_slash d parts
  rw [ht]
  exact slash_append_ne_empty t

theorem getXPath_form (d : NodeData) (parts : List String) :
    (∃ idv, getXPath d parts = "//*[@id=\"" ++ idv ++ "\"]") ∨
    getXPath d parts = "/" ++ String.intercalate "/" parts := by
  unfold getXPath
  by_cases h : ((getAttribute d.attributes "id").getD "" != "") = true
  · exact Or.inl ⟨(getAttribute d.attributes "id").getD "", by simp only [h, if_true]⟩
  · exact Or.inr (by simp [h])

/-- When the node carries a truthy `id` attribute, `getXPath` returns
the id form for that value. -/
theorem getXPath_of_id (d : NodeData) (parts : List String) (idv : String)
    (hid : getAttribute d.attributes "id" = some idv) (hne : idv ≠ "") :
    getXPath d parts = "//*[@id=\"" ++ idv ++ "\"]" := by
  unfold getXPath
  rw [hid]
  simp [hne]

/-- Every element of a classification pass is the conversion of a raw
record built by `mkRaw`. -/
theorem clickable_elements_shape (iW iH : ℚ) (body : DomNode) (bodyParts : List String) :
    ∀ e ∈ WebScraper.clickable_elements iW iH body bodyParts,
      ∃ d parts2 i, e = rawToElementInfo (mkRaw iW iH d parts2 i) := by
  intro e he
  obtain ⟨r, hr, hre⟩ := List.mem_map.1 he
  obtain ⟨d, parts2, i, hshape⟩ :=
    processElement_shape iW iH body bodyParts 0 r hr
  exact ⟨d, parts2, i, by rw [← hre, hshape]⟩

/-- Every element of a classification pass has the `getXPath` of its
node as xpath, hence a non-empty string starting with a slash. -/
theorem clickable_elements_xpath (iW iH : ℚ) (body : DomNode) (bodyParts : List String) :
    ∀ e ∈ WebScraper.clickable_elements iW iH body bodyParts,
      e.xpath ≠ "" ∧ (∃ t, e.xpath = "/" ++ t) ∧
      ((∃ idv, e.xpath = "//*[@id=\"" ++ idv ++ "\"]") ∨
       (∃ ps, e.xpath = "/" ++ String.intercalate "/" ps)) := by
  intro e he
  obtain ⟨d, parts2, i, hshape⟩ := clickable_elements_shape iW iH body bodyParts e he
  have hx : e.xpath = getXPath d parts2 := by rw [hshape]; rfl
  refine ⟨by rw [hx]; exact getXPath_ne_empty d parts2, by rw [hx]; exact getXPath_slash d parts2, ?_⟩
  rw [hx]
  rcases getXPath_form d parts2 with h | h
  · exact Or.inl h
  · exact Or.inr ⟨parts2, h⟩

/-- Every element of a classification pass carries the constant
visibility flag `true` that `processElement` records. -/
theorem clickable_elements_visible_flag (iW iH : ℚ) (body : DomNode) (bodyParts : List String) :
    ∀ e ∈ WebScraper.clickable_elements iW iH body bodyParts, e.is_visible = true := by
  intro e he
  obtain ⟨d, parts2, i, hshape⟩ := clickable_elements_shape iW iH body bodyParts e he
  rw [hshape]
  rfl

theorem parseAttributes_to_dict (l : List (String × String)) :
    parseAttributes (l.map (fun kv => (kv.1, Json.str kv.2))) = some l := by
  induction l with
  | nil => rfl
  | cons kv rest ih => simp [parseAttributes, ih]

theorem parseBoundingBox_to_dict (ob : Option Rect) :
    parseBoundingBox (match ob with | some r => r.to_dict | none => .obj []) = some ob := by
  cases ob with
  | none => rfl
  | some r => rfl

theorem parseElementInfo_to_dict (e : ElementInfo) :
    parseElementInfo e.to_dict = some e := by
  simp only [ElementInfo.to_dict, parseElementInfo, parseAttributes_to_dict,
    parseBoundingBox_to_dict, Option.bind_eq_bind, Option.some_bind]

theorem parseElements_to_dict (es : List ElementInfo) :
    parseElements (es.map ElementInfo.to_dict) = some es := by
  induction es with
  | nil => rfl
  | cons e rest ih => simp [parseElements, parseElementInfo_to_dict, ih]

theorem toString_two : toString (2 : Nat) = "2" := rfl

theorem toString_three : toString (3 : Nat) = "3" := rfl

theorem toString_four : toString (4 : Nat) = "4" := rfl

/-- The classification pass on the demo page, evaluated. -/
theorem demo_elements_eq :
    WebScraper.clickable_elements 1280 800 demoBody ["html", "body"] =
      [ rawToElementInfo (mkRaw 1280 800 (demoData "button" []) ["html", "body", "button"] 0)
      , rawToElementInfo (mkRaw 1280 800 (demoData "button" []) ["html", "body", "button[2]"] 1)
      , rawToElementInfo (mkRaw 1280 800 (demoData "button" []) ["html", "body", "button[3]"] 2)
      , rawToElementInfo
          (mkRaw 1280 800 (demoData "button" [("id", "submit")]) ["html", "body", "button[4]"] 3)
      ] := by
  unfold WebScraper.clickable_elements js_get_clickable_elements demoBody
  rw [processElement]
  rw [if_pos (show isVisible (demoData "body" []) = true from by decide)]
  rw [if_neg (show ¬ isInteractive (demoData "body" []) = true from by decide),
      if_neg (show ¬ isInteractive (demoData "body" []) = true from by decide)]
  simp [processElement, processChildren, isVisible, isInteractive, interactiveTags,
        getAttribute, attrTruthy, demoData, childPart, DomNode.data,
        toString_two, toString_three, toString_four]

/-- C3: click_element tries the strategies in the fixed order xpath
locator, id CSS selector, coordinate click at the center of the
bounding box captured at classification time; the first applicable
strategy that succeeds wins, and an element with an empty recorded
xpath, no id attribute and a captured box is clicked at the box
center. -/
theorem claim_C3_strategy_order (env : ClickEnv) (elements : List ElementInfo) (idx : Int)
    (e : ElementInfo) (hfind : elements.find? (fun x => x.index == idx) = some e) :
    (e.xpath ≠ "" →
      WebScraper.click_element env true idx elements =
        (.ok (env.xpathClickOk e.xpath), [.clickXPath e.xpath])) ∧
    (e.xpath = "" → ∀ idv, getAttribute e.attributes "id" = some idv →
      WebScraper.click_element env true idx elements =
        (.ok (env.idClickOk ("#" ++ idv)), [.clickSelector ("#" ++ idv)])) ∧
    (e.xpath = "" → getAttribute e.attributes "id" = none →
      ∀ bb, e.bounding_box = some bb →
      WebScraper.click_element env true idx elements =
        (.ok (env.mouseClickOk (bb.x + bb.width / 2) (bb.y + bb.height / 2)),
         [.mouseClick (bb.x + bb.width / 2) (bb.y + bb.height / 2)])) := by
  refine ⟨?_, ?_, ?_⟩
  · intro hx
    have hx2 : (e.xpath != "") = true := by simpa [bne_iff_ne] using hx
    by_cases henv : env.xpathClickOk e.xpath <;>
      simp [WebScraper.click_element, hfind, hx2, henv]
  · intro hx idv hid
    have hx2 : (e.xpath != "") = false := by simp [hx]
    by_cases henv : env.idClickOk ("#" ++ idv) <;>
      simp [WebScraper.click_element, hfind, hx2, hid, henv]
  · intro hx hid bb hbb
    have hx2 : (e.xpath != "") = false := by simp [hx]
    by_cases henv : env.mouseClickOk (bb.x + bb.width / 2) (bb.y + bb.height / 2) <;>
      simp [WebScraper.click_element, hfind, hx2, hid, hbb, henv]

theorem claim_C3_witness :
    WebScraper.click_element allOkEnv true 0 [plainElem] =
      (.ok (allOkEnv.mouseClickOk ((10 : ℚ) + 20 / 2) ((5 : ℚ) + 8 / 2)),
       [.mouseClick ((10 : ℚ) + 20 / 2) ((5 : ℚ) + 8 / 2)]) :=
  (claim_C3_strategy_order allOkEnv [plainElem] 0 plainElem rfl).2.2 rfl rfl
    ⟨10, 5, 20, 8, 5, 30, 13, 10⟩ rfl

/-- C2, counterexample: the claim says an automation-layer error in
one strategy only fails that strategy and the call falls through to
the next.  In the source the `try` wraps the whole strategy chain, so
with an element whose xpath click raises and whose id click would
succeed, the call performs only the xpath click and returns `False`
for the whole call — it never attempts the id selector. -/
theorem claim_C2_counterexample :
    xpathFailEnv.idClickOk "#submit" = true ∧
    getAttribute errElem.attributes "id" = some "submit" ∧
    errElem.xpath = "/html/body/a" ∧
    WebScraper.click_element xpathFailEnv true 0 [errElem] =
      (.ok false, [.clickXPath "/html/body/a"]) :=
  ⟨rfl, rfl, rfl, rfl⟩

/-- C2, amended: an automation-layer error during the attempted click
strategy is caught and makes the whole call return `False`; no later
strategy is attempted (the trace holds only the failed attempt). -/
theorem claim_C2_amended_error_aborts_call (env : ClickEnv) (idx : Int)
    (elements : List ElementInfo) (e : ElementInfo)
    (hfind : elements.find? (fun x => x.index == idx) = some e) :
    (e.xpath ≠ "" → env.xpathClickOk e.xpath = false →
      WebScraper.click_element env true idx elements = (.ok false, [.clickXPath e.xpath])) ∧
    (e.xpath = "" → ∀ idv, getAttribute e.attributes "id" = some idv →
      env.idClickOk ("#" ++ idv) = false →
      WebScraper.click_element env true idx elements =
        (.ok false, [.clickSelector ("#" ++ idv)])) := by
  refine ⟨?_, ?_⟩
  · intro hx henv
    have hx2 : (e.xpath != "") = true := by simpa [bne_iff_ne] using hx
    simp [WebScraper.click_element, hfind, hx2, henv]
  · intro hx idv hid henv
    have hx2 : (e.xpath != "") = false := by simp [hx]
    simp [WebScraper.click_element, hfind, hx2, hid, henv]

theorem claim_C2_witness :
    WebScraper.click_element xpathFailEnv true 0 [errElem] =
      (.ok false, [.clickXPath errElem.xpath]) :=
  (claim_C2_amended_error_aborts_call xpathFailEnv 0 [errElem] errElem rfl).1
    (by decide) rfl

/-- C5, counterexample: the claim says an index-based operation on an
unopened session raises a hard usage error.  In the source both
`highlight_element` and `click_element` return the ordinary failure
result `False` when `self.page` is unset (`Except.ok false`, not an
escaping `Except.error`), performing no browser interaction. -/
theorem claim_C5_counterexample :
    WebScraper.click_element allOkEnv false 7 [] = (.ok false, []) ∧
    WebScraper.highlight_element allOkHEnv false 7 [] = (.ok false, []) :=
  ⟨rfl, rfl⟩

/-- C5, amended: highlight_element and click_element on a session with
no open page return the ordinary failure result `False` without
raising and without any browser interaction (only
`find_clickable_elements` raises a usage `ValueError`). -/
theorem claim_C5_amended_returns_false (cenv : ClickEnv) (henv : HighlightEnv) (idx : Int)
    (elements : List ElementInfo) :
    WebScraper.click_element cenv false idx elements = (.ok false, []) ∧
    WebScraper.highlight_element henv false idx elements = (.ok false, []) ∧
    WebScraper.find_clickable_elements false 1280 800 demoBody ["html", "body"] =
      .error "No page is open. Call open_page() first." :=
  ⟨rfl, rfl, rfl⟩

/-- C6: when no element of the snapshot carries the requested index,
highlight_element and click_element both return `False` without
raising and perform no browser interaction at all (empty trace, so
page state and DOM are untouched). -/
theorem claim_C6_unknown_index (cenv : ClickEnv) (henv : HighlightEnv) (idx : Int)
    (elements : List ElementInfo) (h : ∀ e ∈ elements, ¬ e.index = idx) :
    WebScraper.click_element cenv true idx elements = (.ok false, []) ∧
    WebScraper.highlight_element henv true idx elements = (.ok false, []) := by
  have hf : elements.find? (fun e => e.index == idx) = none := by
    rw [List.find?_eq_none]
    intro e he
    simpa using h e he
  constructor <;> simp [WebScraper.click_element, WebScraper.highlight_element, hf]

theorem claim_C6_witness :
    WebScraper.click_element allOkEnv true 7 [plainElem] = (.ok false, []) ∧
    WebScraper.highlight_element allOkHEnv true 7 [plainElem] = (.ok false, []) :=
  claim_C6_unknown_index allOkEnv allOkHEnv 7 [plainElem] (by decide)

/-- C7: the classifier viewport test allows a 100px margin on all four
edges — a rectangle lying entirely within the viewport expanded by
100px on each edge is marked in-viewport, and one lying entirely more
than 100px beyond some viewport edge is marked not-in-viewport
(rectangle well-formedness, left at most right and top at most
bottom, is assumed). -/
theorem claim_C7_viewport_tolerance (iW iH : ℚ) (r : Rect)
    (hlr : r.left ≤ r.right) (htb : r.top ≤ r.bottom) :
    ((-100 ≤ r.left ∧ r.right ≤ iW + 100 ∧ -100 ≤ r.top ∧ r.bottom ≤ iH + 100) →
      isInViewport iW iH r = true) ∧
    ((r.right < -100 ∨ r.bottom < -100 ∨ iW + 100 < r.left ∨ iH + 100 < r.top) →
      isInViewport iW iH r = false) := by
  unfold isInViewport
  constructor
  · rintro ⟨h1, h2, h3, h4⟩
    simp only [Bool.and_eq_true, decide_eq_true_eq]
    refine ⟨⟨⟨?_, ?_⟩, ?_⟩, ?_⟩ <;> [linarith; linarith; linarith; linarith]
  · intro h
    by_contra hc
    rw [Bool.not_eq_false] at hc
    simp only [Bool.and_eq_true, decide_eq_true_eq] at hc
    obtain ⟨⟨⟨h1, h2⟩, h3⟩, h4⟩ := hc
    rcases h with h | h | h | h <;> linarith

theorem claim_C7_witness :
    (0 : ℚ) ≤ 100 ∧ isInViewport 1280 800 ⟨0, 0, 100, 20, 0, 100, 20, 0⟩ = true :=
  ⟨by decide,
   (claim_C7_viewport_tolerance 1280 800 ⟨0, 0, 100, 20, 0, 100, 20, 0⟩
      (by decide) (by decide)).1
     ⟨by decide, le_trans (by decide) (le_add_of_nonneg_right (by decide)),
      by decide, le_trans (by decide) (le_add_of_nonneg_right (by decide))⟩⟩

/-- C8: serializing a PageAnalysis to the JSON document shape and
parsing the document back yields the original analysis — in
particular the same element sequence: indices, tag names, texts,
attribute mappings, xpaths, both flags and bounding-box values, in
order. -/
theorem claim_C8_round_trip (p : PageAnalysis) :
    parsePageAnalysis p.to_dict = some p ∧
    (parsePageAnalysis p.to_dict).map PageAnalysis.elements = some p.elements := by
  have h : parsePageAnalysis p.to_dict = some p := by
    simp [PageAnalysis.to_dict, parsePageAnalysis, parseElements_to_dict]
  exact ⟨h, by rw [h]; rfl⟩

/-- C1: the indices of one classification pass form exactly the
contiguous range from 0 to the number of returned elements, in
emission (DOM pre-order discovery) order, with the counter starting
at zero; in particular they are pairwise distinct. -/
theorem claim_C1_indices_contiguous (iW iH : ℚ) (body : DomNode) (bodyParts : List String) :
    (WebScraper.clickable_elements iW iH body bodyParts).map ElementInfo.index =
      (List.range (WebScraper.clickable_elements iW iH body bodyParts).length).map Int.ofNat ∧
    ((WebScraper.clickable_elements iW iH body bodyParts).map ElementInfo.index).Nodup := by
  have hraw := (processElement_counter iW iH body bodyParts 0).2
  have key : (WebScraper.clickable_elements iW iH body bodyParts).map ElementInfo.index =
      ((js_get_clickable_elements iW iH body bodyParts).map (fun r => r.index)).map Int.ofNat := by
    simp only [WebScraper.clickable_elements, List.map_map]
    rfl
  have hlen : (WebScraper.clickable_elements iW iH body bodyParts).length =
      (js_get_clickable_elements iW iH body bodyParts).length := by
    simp [WebScraper.clickable_elements]
  have hmain : (WebScraper.clickable_elements iW iH body bodyParts).map ElementInfo.index =
      (List.range (WebScraper.clickable_elements iW iH body bodyParts).length).map Int.ofNat := by
    rw [key, hlen]
    unfold js_get_clickable_elements
    rw [hraw, List.range_eq_range']
  refine ⟨hmain, ?_⟩
  rw [hmain]
  exact ((List.nodup_range _).map (fun a b h => Int.ofNat.inj h))

/-- C9: every classified element has a non-empty xpath (id form or
positional slash path), so click_element on a genuine snapshot always
attempts the XPath strategy and never reaches the id CSS-selector
branch. -/
theorem claim_C9_xpath_first (iW iH : ℚ) (body : DomNode) (bodyParts : List String) :
    (∀ e ∈ WebScraper.clickable_elements iW iH body bodyParts,
      e.xpath ≠ "" ∧
      ((∃ idv, e.xpath = "//*[@id=\"" ++ idv ++ "\"]") ∨
       (∃ ps, e.xpath = "/" ++ String.intercalate "/" ps))) ∧
    (∀ env idx e,
      (WebScraper.clickable_elements iW iH body bodyParts).find?
          (fun x => x.index == idx) = some e →
      WebScraper.click_element env true idx (WebScraper.clickable_elements iW iH body bodyParts) =
        (.ok (env.xpathClickOk e.xpath), [.clickXPath e.xpath])) ∧
    (∀ env idx sel,
      BrowserOp.clickSelector sel ∉
        (WebScraper.click_element env true idx
          (WebScraper.clickable_elements iW iH body bodyParts)).2) := by
  refine ⟨?_, ?_, ?_⟩
  · intro e he
    obtain ⟨hne, hslash, hform⟩ := clickable_elements_xpath iW iH body bodyParts e he
    exact ⟨hne, hform⟩
  · intro env idx e hfind
    have he := List.mem_of_find?_eq_some hfind
    have hne := (clickable_elements_xpath iW iH body bodyParts e he).1
    have hx2 : (e.xpath != "") = true := by simpa [bne_iff_ne] using hne
    by_cases henv : env.xpathClickOk e.xpath <;>
      simp [WebScraper.click_element, hfind, hx2, henv]
  · intro env idx sel
    cases hfind : (WebScraper.clickable_elements iW iH body bodyParts).find?
        (fun x => x.index == idx) with
    | none => simp [WebScraper.click_element, hfind]
    | some e =>
      have he := List.mem_of_find?_eq_some hfind
      have hne := (clickable_elements_xpath iW iH body bodyParts e he).1
      have hx2 : (e.xpath != "") = true := by simpa [bne_iff_ne] using hne
      by_cases henv : env.xpathClickOk e.xpath <;>
        simp [WebScraper.click_element, hfind, hx2, henv]

theorem claim_C9_witness :
    demoSubmitElem.xpath ≠ "" ∧
    ((∃ idv, demoSubmitElem.xpath = "//*[@id=\"" ++ idv ++ "\"]") ∨
     (∃ ps, demoSubmitElem.xpath = "/" ++ String.intercalate "/" ps)) :=
  (claim_C9_xpath_first 1280 800 demoBody ["html", "body"]).1 demoSubmitElem
    (by simp [demo_elements_eq, demoSubmitElem])

/-- C10: a classification pass records the constant visibility flag
true for every element it outputs (invisible nodes are skipped
entirely), so no ElementInfo produced by find_clickable_elements has
a false is_visible flag. -/
theorem claim_C10_visible_flag (iW iH : ℚ) (body : DomNode) (bodyParts : List String) :
    WebScraper.find_clickable_elements true iW iH body bodyParts =
      .ok (WebScraper.clickable_elements iW iH body bodyParts) ∧
    ∀ e ∈ WebScraper.clickable_elements iW iH body bodyParts, e.is_visible = true :=
  ⟨rfl, clickable_elements_visible_flag iW iH body bodyParts⟩

theorem claim_C10_witness : demoSubmitElem.is_visible = true :=
  (claim_C10_visible_flag 1280 800 demoBody ["html", "body"]).2 demoSubmitElem
    (by simp [demo_elements_eq, demoSubmitElem])

/-- The demo snapshot resolves index 3 to its fourth element, the
button with id submit. -/
theorem demo_find3 :
    (WebScraper.clickable_elements 1280 800 demoBody ["html", "body"]).find?
      (fun x => x.index == 3) = some demoSubmitElem := by
  rw [demo_elements_eq]
  simp [List.find?, rawToElementInfo, mkRaw, demoSubmitElem]

/-- C4, counterexample: the claim says clicking the snapshot element
at index 3 carrying id submit selects the id-based CSS-selector
strategy.  On a genuine snapshot the classifier records the non-empty
id-form XPath for that element, so click_element performs exactly one
browser operation, an xpath-locator click — the id CSS-selector
strategy is never selected (success without coordinate clicking does
hold). -/
theorem claim_C4_counterexample :
    getAttribute demoSubmitElem.attributes "id" = some "submit" ∧
    demoSubmitElem.index = 3 ∧
    WebScraper.click_element allOkEnv true 3
        (WebScraper.clickable_elements 1280 800 demoBody ["html", "body"]) =
      (.ok true, [.clickXPath "//*[@id=\"submit\"]"]) := by
  refine ⟨rfl, rfl, ?_⟩
  have hx2 : (demoSubmitElem.xpath != "") = true := by decide
  have hxp : demoSubmitElem.xpath = "//*[@id=\"submit\"]" := rfl
  simp [WebScraper.click_element, demo_find3, hx2, hxp, allOkEnv]

/-- C4, amended: for a genuine snapshot whose element at index 3 has
an attribute id submit, click_element (with the xpath click
succeeding) selects the XPath strategy with the id-based locator and
reports success, never reaching the id CSS selector or coordinate
clicking. -/
theorem claim_C4_amended_id_via_xpath (iW iH : ℚ) (body : DomNode) (bodyParts : List String)
    (env : ClickEnv) (e : ElementInfo)
    (hfind : (WebScraper.clickable_elements iW iH body bodyParts).find?
      (fun x => x.index == 3) = some e)
    (hid : getAttribute e.attributes "id" = some "submit")
    (hok : env.xpathClickOk "//*[@id=\"submit\"]" = true) :
    e.xpath = "//*[@id=\"submit\"]" ∧
    WebScraper.click_element env true 3 (WebScraper.clickable_elements iW iH body bodyParts) =
      (.ok true, [.clickXPath "//*[@id=\"submit\"]"]) := by
  have he := List.mem_of_find?_eq_some hfind
  obtain ⟨d, parts2, i, hshape⟩ := clickable_elements_shape iW iH body bodyParts e he
  have hattr : e.attributes = d.attributes := by rw [hshape]; rfl
  have hxp : e.xpath = getXPath d parts2 := by rw [hshape]; rfl
  have hid2 : getAttribute d.attributes "id" = some "submit" := by rw [← hattr]; exact hid
  have hform : e.xpath = "//*[@id=\"submit\"]" := by
    rw [hxp, getXPath_of_id d parts2 "submit" hid2 (by decide)]
    decide
  have hx2 : (e.xpath != "") = true := by rw [hform]; decide
  refine ⟨hform, ?_⟩
  simp [WebScraper.click_element, hfind, hx2, hform, hok]

theorem claim_C4_witness :
    demoSubmitElem.xpath = "//*[@id=\"submit\"]" ∧
    WebScraper.click_element allOkEnv true 3
        (WebScraper.clickable_elements 1280 800 demoBody ["html", "body"]) =
      (.ok true, [.clickXPath "//*[@id=\"submit\"]"]) :=
  claim_C4_amended_id_via_xpath 1280 800 demoBody ["html", "body"] allOkEnv demoSubmitElem
    demo_find3 rfl rfl
